import Mathlib

/-!
Shallow embedding of the two-stage stochastic generation expansion planning
(GEP) model `mGEP` from `Stochastic-GEP.py`, together with the instance
construction and result-printing workflow surrounding it.

Sets `sc`, `g`, `p` are embedded as `Fin` index types; all numeric data is
rational. A `Solution` carries one value for every Pyomo decision variable of
the model; the constraint families `eInvesCost`, `eOperaCost`, `eBalance`,
`eMaxProd`, `eENSProd` and the objective `eTotalCost` are transcribed from the
rules of the same names in the source.
-/

namespace GEP

/-- A fully bound instance of the abstract model `mGEP`: the three sets
(`sc`, `g`, `p`, embedded by their cardinalities) and every parameter of the
model, transcribed from the `pyo.Param` declarations. -/
structure GEPInstance where
  nsc : Nat
  ng : Nat
  np : Nat
  /-- scenario probability, `pyo.Param(mGEP.sc)` -/
  pScProb : Fin nsc → ℚ
  /-- demand per time period, `pyo.Param(mGEP.p)` -/
  pDemand : Fin np → ℚ
  /-- variable cost of generation units, `pyo.Param(mGEP.g)` -/
  pVarCost : Fin ng → ℚ
  /-- investment cost of generation units, `pyo.Param(mGEP.g)` -/
  pInvCost : Fin ng → ℚ
  /-- capacity of generation units, `pyo.Param(mGEP.g)` -/
  pUnitCap : Fin ng → ℚ
  /-- renewable indicator, `pyo.Param(mGEP.g)`; never used in any constraint -/
  pIsRenew : Fin ng → ℚ
  /-- weight of representative period, `pyo.Param(within=NonNegativeReals)` -/
  pWeight : ℚ
  /-- energy not supplied cost, `pyo.Param(within=NonNegativeReals)` -/
  pENSCost : ℚ
  /-- availability profile, `pyo.Param(mGEP.sc, mGEP.g, mGEP.p, default=1)` -/
  pAviProf : Fin nsc → Fin ng → Fin np → ℚ

/-- One value for each decision variable of `mGEP`. The types mirror the
`pyo.Var` declarations: `vInstalUnits` is declared `domain=pyo.Integers`
(hence integer-valued, embedded as `ℤ`, with no sign restriction in the
declaration); the other four variables are reals, whose
`domain=pyo.NonNegativeReals` bound is recorded separately in `DomainOK`. -/
structure Solution (I : GEPInstance) where
  vInvesCost : ℚ
  vOperaCost : ℚ
  vProduct : Fin I.nsc → Fin I.ng → Fin I.np → ℚ
  vInstalUnits : Fin I.ng → ℤ
  vENS : Fin I.nsc → Fin I.np → ℚ

/-- The variable-domain bounds of the `pyo.Var` declarations:
`vInvesCost`, `vOperaCost`, `vProduct`, `vENS` all have
`domain=pyo.NonNegativeReals`. `vInstalUnits` has `domain=pyo.Integers`,
which imposes integrality (already captured by its type `ℤ`) and no bound. -/
def DomainOK (I : GEPInstance) (x : Solution I) : Prop :=
  0 ≤ x.vInvesCost ∧ 0 ≤ x.vOperaCost ∧
  (∀ sc g p, 0 ≤ x.vProduct sc g p) ∧ (∀ sc p, 0 ≤ x.vENS sc p)

/-- Objective rule `eTotalCost`: `model.vInvesCost + model.vOperaCost`. -/
def eTotalCost (I : GEPInstance) (x : Solution I) : ℚ :=
  x.vInvesCost + x.vOperaCost

/-- Constraint rule `eInvesCost`:
`vInvesCost == sum(pInvCost[g]*pUnitCap[g]*vInstalUnits[g] for g)`. -/
def eInvesCost (I : GEPInstance) (x : Solution I) : Prop :=
  x.vInvesCost = ∑ g, I.pInvCost g * I.pUnitCap g * (x.vInstalUnits g : ℚ)

/-- Constraint rule `eOperaCost`:
`vOperaCost == pWeight*(sum(pScProb[sc]*pVarCost[g]*vProduct[sc,g,p]) +
sum(pScProb[sc]*pENSCost*vENS[sc,p]))`. -/
def eOperaCost (I : GEPInstance) (x : Solution I) : Prop :=
  x.vOperaCost =
    I.pWeight *
      ((∑ sc, ∑ g, ∑ p, I.pScProb sc * I.pVarCost g * x.vProduct sc g p) +
       (∑ sc, ∑ p, I.pScProb sc * I.pENSCost * x.vENS sc p))

/-- Constraint rule `eBalance` (one row per `(sc,p)`):
`sum(vProduct[sc,g,p] for g) + vENS[sc,p] == pDemand[p]`. -/
def eBalance (I : GEPInstance) (x : Solution I)
    (sc : Fin I.nsc) (p : Fin I.np) : Prop :=
  (∑ g, x.vProduct sc g p) + x.vENS sc p = I.pDemand p

/-- Constraint rule `eMaxProd` (one row per `(sc,g,p)`):
`vProduct[sc,g,p] <= pAviProf[sc,g,p]*pUnitCap[g]*vInstalUnits[g]`. -/
def eMaxProd (I : GEPInstance) (x : Solution I)
    (sc : Fin I.nsc) (g : Fin I.ng) (p : Fin I.np) : Prop :=
  x.vProduct sc g p ≤ I.pAviProf sc g p * I.pUnitCap g * (x.vInstalUnits g : ℚ)

/-- Constraint rule `eENSProd` (one row per `(sc,p)`):
`vENS[sc,p] <= pDemand[p]`. -/
def eENSProd (I : GEPInstance) (x : Solution I)
    (sc : Fin I.nsc) (p : Fin I.np) : Prop :=
  x.vENS sc p ≤ I.pDemand p

/-- A feasible solution: the variable domains plus every constraint row the
model materializes. -/
def Feasible (I : GEPInstance) (x : Solution I) : Prop :=
  DomainOK I x ∧ eInvesCost I x ∧ eOperaCost I x ∧
  (∀ sc p, eBalance I x sc p) ∧
  (∀ sc g p, eMaxProd I x sc g p) ∧
  (∀ sc p, eENSProd I x sc p)

instance (I : GEPInstance) (x : Solution I) : Decidable (DomainOK I x) := by
  unfold DomainOK; infer_instance

instance (I : GEPInstance) (x : Solution I) : Decidable (Feasible I x) := by
  unfold Feasible eInvesCost eOperaCost eBalance eMaxProd eENSProd
  infer_instance

/-- The installed-units values consulted when building the constraint rows of
scenario `sc`: the model has a single scenario-independent variable
`vInstalUnits[g]`, so every scenario reads the same values. -/
def installedUnitsInScenario (I : GEPInstance) (x : Solution I)
    (sc : Fin I.nsc) : Fin I.ng → ℤ :=
  fun g => x.vInstalUnits g

/-- The capacity bound appearing on the right-hand side of the `eMaxProd` row
of `(sc,g,p)`, written through `installedUnitsInScenario`. -/
def capacityBound (I : GEPInstance) (x : Solution I)
    (sc : Fin I.nsc) (g : Fin I.ng) (p : Fin I.np) : ℚ :=
  I.pAviProf sc g p * I.pUnitCap g * (installedUnitsInScenario I x sc g : ℚ)

/-! ### Instance construction

`mGEP.create_instance(data)` binds the tables loaded through the `DataPortal`
to the abstract model. `RawData` is such a table set: a value is `none` when
the table supplies no entry for that set element. During `create_instance`,
Pyomo validates a supplied value against a parameter's declared domain — of
all the parameters only `pWeight` and `pENSCost` declare one
(`within=pyo.NonNegativeReals`) — and it raises an error for a missing value
of any parameter that some constraint rule reads (`pIsRenew` is read by no
rule, so it may stay unsupplied; `pAviProf` falls back to its declared
`default=1`). No other validation exists in the model. -/

/-- Tables of raw values for one instance, keyed by set elements; `none`
marks an entry the data files do not supply. -/
structure RawData where
  nsc : Nat
  ng : Nat
  np : Nat
  pScProb : Fin nsc → Option ℚ
  pDemand : Fin np → Option ℚ
  pVarCost : Fin ng → Option ℚ
  pInvCost : Fin ng → Option ℚ
  pUnitCap : Fin ng → Option ℚ
  pIsRenew : Fin ng → Option ℚ
  pWeight : Option ℚ
  pENSCost : Option ℚ
  pAviProf : Fin nsc → Fin ng → Fin np → Option ℚ

/-- Errors surfaced by instance construction. -/
inductive DataError where
  | missingValue : String → DataError
  | domainViolation : String → DataError
deriving DecidableEq

/-- Every entry of an indexed table is supplied. -/
def allPresent {n : Nat} (f : Fin n → Option ℚ) : Bool :=
  (List.finRange n).all fun i => (f i).isSome

/-- `mGEP.create_instance(data)`: binds `RawData` to the model. It fails on a
missing value of a parameter read by some constraint rule, and on a value of
`pWeight` or `pENSCost` outside their declared `NonNegativeReals` domain (no
other parameter declares a domain). It performs no further check: in
particular it never examines the sum of `pScProb` and never checks the sign
of `pScProb`, `pDemand`, `pVarCost`, `pInvCost` or `pUnitCap`. Missing
`pAviProf` entries default to `1`; `pIsRenew` is optional (no rule reads it)
and defaults to `0` in the bound instance. -/
def create_instance (d : RawData) : Except DataError GEPInstance :=
  match d.pWeight with
  | none => .error (.missingValue "pWeight")
  | some w =>
    if w < 0 then .error (.domainViolation "pWeight") else
    match d.pENSCost with
    | none => .error (.missingValue "pENSCost")
    | some c =>
      if c < 0 then .error (.domainViolation "pENSCost") else
      if ¬ allPresent d.pScProb then .error (.missingValue "pScProb") else
      if ¬ allPresent d.pDemand then .error (.missingValue "pDemand") else
      if ¬ allPresent d.pVarCost then .error (.missingValue "pVarCost") else
      if ¬ allPresent d.pInvCost then .error (.missingValue "pInvCost") else
      if ¬ allPresent d.pUnitCap then .error (.missingValue "pUnitCap") else
      .ok { nsc := d.nsc, ng := d.ng, np := d.np,
            pScProb := fun sc => (d.pScProb sc).getD 0,
            pDemand := fun p => (d.pDemand p).getD 0,
            pVarCost := fun g => (d.pVarCost g).getD 0,
            pInvCost := fun g => (d.pInvCost g).getD 0,
            pUnitCap := fun g => (d.pUnitCap g).getD 0,
            pIsRenew := fun g => (d.pIsRenew g).getD 0,
            pWeight := w, pENSCost := c,
            pAviProf := fun sc g p => (d.pAviProf sc g p).getD 1 }

/-- Sum of the supplied scenario probabilities. -/
def probSum (d : RawData) : ℚ :=
  ∑ sc, (d.pScProb sc).getD 0

/-- Whether instance construction produced an instance (rather than raising
a `DataError`). -/
def buildOk (e : Except DataError GEPInstance) : Bool :=
  match e with
  | .ok _ => true
  | .error _ => false

/-! ### Solve outcome and result printing

After `opt.solve`, the script branches on
`results.solver.status == SolverStatus.ok and
results.solver.termination_condition == TerminationCondition.optimal`: in
that branch it prints the total cost `vInvesCost.value + vOperaCost.value`
and writes one row `(g, vInstalUnits[g], pUnitCap[g]*vInstalUnits[g])` per
technology in the order of `instance.g.data()`; in every other case it prints
"The problem is not optimal." followed by the solver status, and extracts
nothing. -/

/-- Solver status, as in `pyomo.environ.SolverStatus`. -/
inductive SolverStatus where
  | ok | warning | error | aborted | unknown
deriving DecidableEq

/-- Termination condition, as in `pyomo.environ.TerminationCondition`
(the members this workflow distinguishes). -/
inductive TerminationCondition where
  | optimal | feasible | infeasible | unbounded | maxTimeLimit | other
deriving DecidableEq

/-- The solver-facing fields of the `results` object returned by
`opt.solve`. -/
structure SolverResults where
  status : SolverStatus
  termination_condition : TerminationCondition
deriving DecidableEq

/-- What the extraction branch writes: the scalar total cost and, per
technology in declaration order, the installed units and the installed
capacity `pUnitCap[g]*vInstalUnits[g]`. -/
structure ExtractedResults where
  totalCost : ℚ
  rows : List (ℤ × ℚ)
deriving DecidableEq

/-- The result-printing branch of the script: extraction happens exactly when
`results.solver.status == ok` and
`results.solver.termination_condition == optimal`; otherwise the solver
status is reported (`.error r.status`) and nothing is extracted. -/
def print_results (I : GEPInstance) (x : Solution I) (r : SolverResults) :
    Except SolverStatus ExtractedResults :=
  if r.status = SolverStatus.ok ∧
      r.termination_condition = TerminationCondition.optimal then
    .ok { totalCost := x.vInvesCost + x.vOperaCost,
          rows := (List.finRange I.ng).map fun g =>
            (x.vInstalUnits g, I.pUnitCap g * (x.vInstalUnits g : ℚ)) }
  else
    .error r.status

/-! ### Concrete instances -/

/-- The end-to-end instance: one scenario of probability 1, two periods with
demand 5 and 15, one technology with unit capacity 10, investment cost 1,
variable cost 1/100, full availability, weight 1 and unserved-energy cost
1000. -/
@[reducible] def I9 : GEPInstance where
  nsc := 1
  ng := 1
  np := 2
  pScProb := fun _ => 1
  pDemand := fun p => if p.val = 0 then 5 else 15
  pVarCost := fun _ => 1/100
  pInvCost := fun _ => 1
  pUnitCap := fun _ => 10
  pIsRenew := fun _ => 0
  pWeight := 1
  pENSCost := 1000
  pAviProf := fun _ _ _ => 1

/-- The expected optimum of `I9`: two installed units, production equal to
demand, no unserved energy, investment cost 20, operating cost
`(1/100)*(5+15) = 1/5`. -/
@[reducible] def sol9 : Solution I9 where
  vInvesCost := 20
  vOperaCost := 1/5
  vProduct := fun _ _ p => if p.val = 0 then 5 else 15
  vInstalUnits := fun _ => 2
  vENS := fun _ _ => 0

/-- An instance whose only technology is fully unavailable and free to build:
one scenario, one period with demand 5, capacity 10, zero costs except an
unserved-energy cost of 1, availability 0. -/
@[reducible] def I5 : GEPInstance where
  nsc := 1
  ng := 1
  np := 1
  pScProb := fun _ => 1
  pDemand := fun _ => 5
  pVarCost := fun _ => 0
  pInvCost := fun _ => 0
  pUnitCap := fun _ => 10
  pIsRenew := fun _ => 0
  pWeight := 1
  pENSCost := 1
  pAviProf := fun _ _ _ => 0

/-- A solution of `I5` with a negative number of installed units: nothing is
produced, all demand is unserved. -/
@[reducible] def x5 : Solution I5 where
  vInvesCost := 0
  vOperaCost := 5
  vProduct := fun _ _ _ => 0
  vInstalUnits := fun _ => -1
  vENS := fun _ _ => 5

/-- Raw data whose scenario probabilities sum to 2 (two scenarios of
probability 1 each), with every required value supplied and in range. -/
@[reducible] def d6 : RawData where
  nsc := 2
  ng := 1
  np := 1
  pScProb := fun _ => some 1
  pDemand := fun _ => some 5
  pVarCost := fun _ => some 1
  pInvCost := fun _ => some 1
  pUnitCap := fun _ => some 10
  pIsRenew := fun _ => some 0
  pWeight := some 1
  pENSCost := some 1000
  pAviProf := fun _ _ _ => some 1

/-- Raw data supplying a negative demand value (and a negative variable cost,
investment cost, unit capacity and scenario probability), with both scalars
non-negative. -/
@[reducible] def d7 : RawData where
  nsc := 1
  ng := 1
  np := 1
  pScProb := fun _ => some (-1)
  pDemand := fun _ => some (-5)
  pVarCost := fun _ => some (-1)
  pInvCost := fun _ => some (-2)
  pUnitCap := fun _ => some (-10)
  pIsRenew := fun _ => some 0
  pWeight := some 1
  pENSCost := some 1000
  pAviProf := fun _ _ _ => some 1

/-- Raw data with a negative `pWeight`, everything else supplied. -/
@[reducible] def d7w : RawData where
  nsc := 1
  ng := 1
  np := 1
  pScProb := fun _ => some 1
  pDemand := fun _ => some 5
  pVarCost := fun _ => some 1
  pInvCost := fun _ => some 1
  pUnitCap := fun _ => some 10
  pIsRenew := fun _ => some 0
  pWeight := some (-1)
  pENSCost := some 1000
  pAviProf := fun _ _ _ => some 1

/-! ### Helper lemmas on the concrete instances -/

theorem sol9_feasible : Feasible I9 sol9 := by
  refine ⟨⟨by norm_num, by norm_num, ?_, ?_⟩, ?_, ?_, ?_, ?_, ?_⟩
  · intro sc g p; fin_cases p <;> norm_num
  · intro sc p; norm_num
  · show (20 : ℚ) = ∑ _g : Fin 1, (1 : ℚ) * 10 * ((2 : ℤ) : ℚ)
    norm_num
  · show (1/5 : ℚ) =
      1 * ((∑ _sc : Fin 1, ∑ _g : Fin 1, ∑ p : Fin 2,
              1 * (1/100) * (if (p : ℕ) = 0 then (5 : ℚ) else 15)) +
           (∑ _sc : Fin 1, ∑ _p : Fin 2, 1 * 1000 * 0))
    norm_num [Fin.sum_univ_two]
  · intro sc p; fin_cases p <;> norm_num [eBalance]
  · intro sc g p; fin_cases p <;> norm_num [eMaxProd]
  · intro sc p; fin_cases p <;> norm_num [eENSProd]

theorem x5_feasible : Feasible I5 x5 := by
  refine ⟨⟨by norm_num, by norm_num, ?_, ?_⟩, ?_, ?_, ?_, ?_, ?_⟩
  · intro sc g p; norm_num
  · intro sc p; norm_num
  · show (0 : ℚ) = ∑ _g : Fin 1, (0 : ℚ) * 10 * ((-1 : ℤ) : ℚ)
    norm_num
  · show (5 : ℚ) =
      1 * ((∑ _sc : Fin 1, ∑ _g : Fin 1, ∑ _p : Fin 1, 1 * 0 * (0 : ℚ)) +
           (∑ _sc : Fin 1, ∑ _p : Fin 1, 1 * 1 * (5 : ℚ)))
    norm_num
  · intro sc p; norm_num [eBalance]
  · intro sc g p; norm_num [eMaxProd]
  · intro sc p; norm_num [eENSProd]

/-! ### The claims -/

/-- C1: non-anticipativity is structural. `vInstalUnits` is indexed only by
the technology set, so the installed-units values consulted when building the
rows of any two scenarios are identical, for every instance and every
solution; no constraint or objective term can read a per-scenario copy,
because none exists. -/
theorem c1_non_anticipativity (I : GEPInstance) (x : Solution I)
    (sc₁ sc₂ : Fin I.nsc) (g : Fin I.ng) :
    installedUnitsInScenario I x sc₁ g = installedUnitsInScenario I x sc₂ g ∧
    capacityBound I x sc₁ g =
      fun p => I.pAviProf sc₁ g p * I.pUnitCap g *
        (installedUnitsInScenario I x sc₂ g : ℚ) :=
  ⟨rfl, rfl⟩

/-- C2: in every feasible solution of every instance, `vOperaCost` equals the
weight times the probability-weighted variable-cost sum plus the
probability-weighted unserved-energy penalty sum. -/
theorem c2_operating_cost_identity (I : GEPInstance) (x : Solution I)
    (h : Feasible I x) :
    x.vOperaCost =
      I.pWeight *
        ((∑ sc, ∑ g, ∑ p, I.pScProb sc * I.pVarCost g * x.vProduct sc g p) +
         (∑ sc, ∑ p, I.pScProb sc * I.pENSCost * x.vENS sc p)) :=
  h.2.2.1

theorem c2_witness :
    sol9.vOperaCost =
      I9.pWeight *
        ((∑ sc, ∑ g, ∑ p,
            I9.pScProb sc * I9.pVarCost g * sol9.vProduct sc g p) +
         (∑ sc, ∑ p, I9.pScProb sc * I9.pENSCost * sol9.vENS sc p)) :=
  c2_operating_cost_identity I9 sol9 sol9_feasible

/-- C3: in every feasible solution of every instance, `vInvesCost` equals the
sum over technologies of investment cost times unit capacity times installed
units, and the minimized objective `eTotalCost` is the sum of the two cost
variables. -/
theorem c3_investment_cost_identity (I : GEPInstance) (x : Solution I)
    (h : Feasible I x) :
    x.vInvesCost =
      ∑ g, I.pInvCost g * I.pUnitCap g * (x.vInstalUnits g : ℚ) ∧
    eTotalCost I x = x.vInvesCost + x.vOperaCost :=
  ⟨h.2.1, rfl⟩

theorem c3_witness :
    sol9.vInvesCost =
      ∑ g, I9.pInvCost g * I9.pUnitCap g * (sol9.vInstalUnits g : ℚ) ∧
    eTotalCost I9 sol9 = sol9.vInvesCost + sol9.vOperaCost :=
  c3_investment_cost_identity I9 sol9 sol9_feasible

/-- C4: every feasible solution satisfies, for every `(sc,p)`, the power
balance as an exact equality, and, for every `(sc,g,p)`, the availability
capacity bound on production. -/
theorem c4_balance_and_capacity (I : GEPInstance) (x : Solution I)
    (h : Feasible I x) :
    (∀ sc p, (∑ g, x.vProduct sc g p) + x.vENS sc p = I.pDemand p) ∧
    (∀ sc g p, x.vProduct sc g p ≤
        I.pAviProf sc g p * I.pUnitCap g * (x.vInstalUnits g : ℚ)) :=
  ⟨h.2.2.2.1, h.2.2.2.2.1⟩

theorem c4_witness :
    ((∑ g, sol9.vProduct 0 g 1) + sol9.vENS 0 1 = I9.pDemand 1) ∧
    (sol9.vProduct 0 0 1 ≤
        I9.pAviProf 0 0 1 * I9.pUnitCap 0 * (sol9.vInstalUnits 0 : ℚ)) :=
  ⟨(c4_balance_and_capacity I9 sol9 sol9_feasible).1 0 1,
   (c4_balance_and_capacity I9 sol9 sol9_feasible).2 0 0 1⟩

/-- C5 (counterexample): it is not the case that every feasible solution has
non-negative installed units: the declared domain of `vInstalUnits` is
`pyo.Integers`, and on the instance `I5` (whose only technology is fully
unavailable and free) the feasible solution `x5` installs `-1` units. -/
theorem c5_counterexample :
    ¬ (∀ (I : GEPInstance) (x : Solution I),
        Feasible I x → ∀ g, 0 ≤ x.vInstalUnits g) :=
  fun hclaim => absurd (hclaim I5 x5 x5_feasible 0) (by norm_num)

/-- C5 (amended): `vInstalUnits` is integer-valued by its declared domain
`pyo.Integers` (captured by its type `ℤ`), but that domain has no lower
bound; in a feasible solution, the installed units of a technology `g` are
non-negative whenever some `(sc,p)` gives `g` a positive
availability-capacity product. -/
theorem c5_integral_conditionally_nonneg (I : GEPInstance) (x : Solution I)
    (h : Feasible I x) (g : Fin I.ng) (sc : Fin I.nsc) (p : Fin I.np)
    (hpos : 0 < I.pAviProf sc g p * I.pUnitCap g) :
    0 ≤ x.vInstalUnits g := by
  have hprod : 0 ≤ x.vProduct sc g p := h.1.2.2.1 sc g p
  have hmax : x.vProduct sc g p ≤
      I.pAviProf sc g p * I.pUnitCap g * (x.vInstalUnits g : ℚ) :=
    h.2.2.2.2.1 sc g p
  have hq : (0 : ℚ) ≤ (x.vInstalUnits g : ℚ) := by nlinarith
  exact_mod_cast hq

theorem c5_witness : 0 ≤ sol9.vInstalUnits 0 :=
  c5_integral_conditionally_nonneg I9 sol9 sol9_feasible 0 0 0 (by norm_num)

/-- C10: in every feasible solution, total production never exceeds demand:
the balance equality and the non-negativity of `vENS` force
`sum_g vProduct[sc,g,p] = pDemand[p] - vENS[sc,p] <= pDemand[p]`. -/
theorem c10_no_overgeneration (I : GEPInstance) (x : Solution I)
    (h : Feasible I x) (sc : Fin I.nsc) (p : Fin I.np) :
    (∑ g, x.vProduct sc g p) ≤ I.pDemand p := by
  have hb : (∑ g, x.vProduct sc g p) + x.vENS sc p = I.pDemand p :=
    h.2.2.2.1 sc p
  have hens : 0 ≤ x.vENS sc p := h.1.2.2.2 sc p
  linarith

theorem c10_witness : (∑ g, sol9.vProduct 0 g 0) ≤ I9.pDemand 0 :=
  c10_no_overgeneration I9 sol9 sol9_feasible 0 0

/-- C6 (counterexample): the scenario probabilities of `d6` sum to 2 —
deviating from 1 by far more than the tolerance `1e-6` — yet instance
construction succeeds: the model declares no probability-sum validation. -/
theorem c6_counterexample :
    (1 : ℚ)/1000000 < |probSum d6 - 1| ∧
    buildOk (create_instance d6) = true := by
  constructor
  · show (1 : ℚ)/1000000 < |(∑ _sc : Fin 2, ((some (1 : ℚ)).getD 0)) - 1|
    norm_num [Fin.sum_univ_two]
  · rfl

/-- C6 (amended): instance construction performs no probability-sum check at
all: whenever every required parameter value is supplied and the two scalars
are non-negative, an instance is produced, whatever the scenario
probabilities sum to. -/
theorem c6_no_probability_check (d : RawData) (w c : ℚ)
    (hw : d.pWeight = some w) (hw0 : 0 ≤ w)
    (hc : d.pENSCost = some c) (hc0 : 0 ≤ c)
    (h1 : allPresent d.pScProb = true) (h2 : allPresent d.pDemand = true)
    (h3 : allPresent d.pVarCost = true) (h4 : allPresent d.pInvCost = true)
    (h5 : allPresent d.pUnitCap = true) :
    buildOk (create_instance d) = true := by
  unfold create_instance
  rw [hw, hc]
  simp [not_lt.2 hw0, not_lt.2 hc0, h1, h2, h3, h4, h5, buildOk]

theorem c6_witness : buildOk (create_instance d6) = true :=
  c6_no_probability_check d6 1 1000 rfl (by norm_num) rfl (by norm_num)
    rfl rfl rfl rfl rfl

/-- C7 (counterexample): `d7` supplies negative values for the scenario
probability, demand, variable cost, investment cost and unit capacity, yet
instance construction succeeds: none of these parameters declares a domain,
so no negativity check exists for them. -/
theorem c7_counterexample :
    d7.pScProb 0 = some (-1) ∧ d7.pDemand 0 = some (-5) ∧
    d7.pVarCost 0 = some (-1) ∧ d7.pInvCost 0 = some (-2) ∧
    d7.pUnitCap 0 = some (-10) ∧ buildOk (create_instance d7) = true :=
  ⟨rfl, rfl, rfl, rfl, rfl, rfl⟩

/-- C7 (amended): of all parameters, only `pWeight` and `pENSCost` carry the
domain `NonNegativeReals`, so instance construction rejects a negative value
exactly for these two scalars. -/
theorem c7_only_scalar_domains_checked (d : RawData) (v : ℚ) (hv : v < 0) :
    (d.pWeight = some v → buildOk (create_instance d) = false) ∧
    (d.pENSCost = some v → buildOk (create_instance d) = false) := by
  constructor
  · intro hw
    unfold create_instance
    rw [hw]
    simp [hv, buildOk]
  · intro hc
    unfold create_instance
    rw [hc]
    cases hdw : d.pWeight with
    | none => simp [buildOk]
    | some w =>
      by_cases hw : w < 0 <;> simp [hw, hv, buildOk]

theorem c7_witness : buildOk (create_instance d7w) = false :=
  (c7_only_scalar_domains_checked d7w (-1) (by norm_num)).1 rfl

/-- C8 (counterexample): with solver status `ok` but termination condition
`feasible` (suboptimal within gap), the result-printing branch reports the
status and extracts nothing, contrary to the claim that extraction also runs
on a feasible termination. -/
theorem c8_counterexample :
    print_results I9 sol9
        { status := SolverStatus.ok,
          termination_condition := TerminationCondition.feasible } =
      Except.error SolverStatus.ok :=
  rfl

/-- C8 (amended): extraction runs exactly when the solver status is `ok` and
the termination condition is `optimal`; it then reports the total cost
`vInvesCost + vOperaCost` and, per technology in declaration order, the pair
of installed units and installed capacity; on every other outcome it reports
the solver status and extracts nothing. -/
theorem c8_extraction_condition (I : GEPInstance) (x : Solution I)
    (r : SolverResults) :
    (r.status = SolverStatus.ok ∧
        r.termination_condition = TerminationCondition.optimal →
      print_results I x r = Except.ok
        { totalCost := x.vInvesCost + x.vOperaCost,
          rows := (List.finRange I.ng).map fun g =>
            (x.vInstalUnits g, I.pUnitCap g * (x.vInstalUnits g : ℚ)) }) ∧
    (¬ (r.status = SolverStatus.ok ∧
        r.termination_condition = TerminationCondition.optimal) →
      print_results I x r = Except.error r.status) := by
  constructor
  · rintro ⟨h1, h2⟩
    simp [print_results, h1, h2]
  · intro hcond
    unfold print_results
    rw [if_neg hcond]

theorem c8_witness :
    print_results I9 sol9
        { status := SolverStatus.ok,
          termination_condition := TerminationCondition.optimal } =
      Except.ok
        { totalCost := sol9.vInvesCost + sol9.vOperaCost,
          rows := (List.finRange I9.ng).map fun g =>
            (sol9.vInstalUnits g, I9.pUnitCap g * (sol9.vInstalUnits g : ℚ)) } :=
  (c8_extraction_condition I9 sol9 _).1 ⟨rfl, rfl⟩

/-- The constraint system of `I9` at a feasible solution, fully expanded:
one technology, one scenario of probability 1, two periods with demands 5
and 15, full availability, unit capacity 10. -/
theorem I9_feasible_facts (x : Solution I9) (h : Feasible I9 x) :
    x.vInvesCost = 10 * (x.vInstalUnits 0 : ℚ) ∧
    x.vOperaCost = (1/100) * x.vProduct 0 0 0 + (1/100) * x.vProduct 0 0 1 +
      1000 * x.vENS 0 0 + 1000 * x.vENS 0 1 ∧
    x.vProduct 0 0 0 + x.vENS 0 0 = 5 ∧
    x.vProduct 0 0 1 + x.vENS 0 1 = 15 ∧
    x.vProduct 0 0 0 ≤ 10 * (x.vInstalUnits 0 : ℚ) ∧
    x.vProduct 0 0 1 ≤ 10 * (x.vInstalUnits 0 : ℚ) ∧
    0 ≤ x.vProduct 0 0 0 ∧ 0 ≤ x.vProduct 0 0 1 ∧
    0 ≤ x.vENS 0 0 ∧ 0 ≤ x.vENS 0 1 := by
  obtain ⟨⟨hic, hoc, hprod, hens⟩, hinv, hop, hbal, hmax, hensb⟩ := h
  refine ⟨?_, ?_, ?_, ?_, ?_, ?_, hprod 0 0 0, hprod 0 0 1, hens 0 0, hens 0 1⟩
  · have h1 : x.vInvesCost =
        ∑ g : Fin 1, (1 : ℚ) * 10 * (x.vInstalUnits g : ℚ) := hinv
    rw [Fin.sum_univ_one] at h1
    linarith
  · have h2 : x.vOperaCost =
        (1 : ℚ) * ((∑ sc : Fin 1, ∑ g : Fin 1, ∑ p : Fin 2,
            1 * (1/100) * x.vProduct sc g p) +
          (∑ sc : Fin 1, ∑ p : Fin 2, 1 * 1000 * x.vENS sc p)) := hop
    simp only [Fin.sum_univ_one, Fin.sum_univ_two] at h2
    linarith
  · have h3 : (∑ g : Fin 1, x.vProduct 0 g 0) + x.vENS 0 0 = 5 := hbal 0 0
    rw [Fin.sum_univ_one] at h3
    linarith
  · have h4 : (∑ g : Fin 1, x.vProduct 0 g 1) + x.vENS 0 1 = 15 := hbal 0 1
    rw [Fin.sum_univ_one] at h4
    linarith
  · have h5 : x.vProduct 0 0 0 ≤ (1 : ℚ) * 10 * (x.vInstalUnits 0 : ℚ) :=
      hmax 0 0 0
    linarith
  · have h6 : x.vProduct 0 0 1 ≤ (1 : ℚ) * 10 * (x.vInstalUnits 0 : ℚ) :=
      hmax 0 0 1
    linarith

/-- Every feasible solution of `I9` costs at least `20 + 1/5`: two units are
needed to cover the peak demand of 15, and dispatching demand costs `1/5`. -/
theorem I9_cost_lower_bound (x : Solution I9) (h : Feasible I9 x) :
    101/5 ≤ eTotalCost I9 x := by
  obtain ⟨h1, h2, h3, h4, h5, h6, h7, h8, h9, h10⟩ := I9_feasible_facts x h
  have hobj : eTotalCost I9 x = x.vInvesCost + x.vOperaCost := rfl
  have hu0 : (0 : ℚ) ≤ (x.vInstalUnits 0 : ℚ) := by linarith
  rcases le_or_lt (x.vInstalUnits 0) 1 with hc | hc
  · have hcq : (x.vInstalUnits 0 : ℚ) ≤ 1 := by exact_mod_cast hc
    rw [hobj]
    linarith
  · have h2le : (2 : ℤ) ≤ x.vInstalUnits 0 := by omega
    have hcq : (2 : ℚ) ≤ (x.vInstalUnits 0 : ℚ) := by exact_mod_cast h2le
    rw [hobj]
    linarith

/-- Any feasible solution of `I9` whose cost does not exceed `101/5` takes
exactly the claimed optimal values. -/
theorem I9_optimal_charact (x : Solution I9) (h : Feasible I9 x)
    (hopt : eTotalCost I9 x ≤ 101/5) :
    x.vInstalUnits 0 = 2 ∧ x.vENS 0 0 = 0 ∧ x.vENS 0 1 = 0 ∧
    x.vInvesCost = 20 ∧ x.vProduct 0 0 0 = 5 ∧ x.vProduct 0 0 1 = 15 := by
  obtain ⟨h1, h2, h3, h4, h5, h6, h7, h8, h9, h10⟩ := I9_feasible_facts x h
  have hobj : eTotalCost I9 x = x.vInvesCost + x.vOperaCost := rfl
  rw [hobj] at hopt
  have hu0 : (0 : ℚ) ≤ (x.vInstalUnits 0 : ℚ) := by linarith
  rcases le_or_lt (x.vInstalUnits 0) 1 with hc | hc
  · exfalso
    have hcq : (x.vInstalUnits 0 : ℚ) ≤ 1 := by exact_mod_cast hc
    linarith
  · have h2le : (2 : ℤ) ≤ x.vInstalUnits 0 := by omega
    have hcq : (2 : ℚ) ≤ (x.vInstalUnits 0 : ℚ) := by exact_mod_cast h2le
    have hE0 : x.vENS 0 0 = 0 := by linarith
    have hE1 : x.vENS 0 1 = 0 := by linarith
    have huq : (x.vInstalUnits 0 : ℚ) = 2 := by linarith
    have hu : x.vInstalUnits 0 = 2 := by exact_mod_cast huq
    exact ⟨hu, hE0, hE1, by linarith, by linarith, by linarith⟩

/-- C9: on the end-to-end instance `I9` (one scenario of probability 1,
demands 5 and 15, one technology of capacity 10, investment cost 1, variable
cost 1/100, availability 1, weight 1, unserved cost 1000), the solution
`sol9` is feasible and optimal, and every optimal solution installs exactly 2
units, serves all demand with zero unserved energy, has investment cost 20,
and produces exactly the demand in each period. -/
theorem c9_end_to_end :
    Feasible I9 sol9 ∧
    (∀ x : Solution I9, Feasible I9 x →
      eTotalCost I9 sol9 ≤ eTotalCost I9 x) ∧
    (∀ x : Solution I9, Feasible I9 x →
      eTotalCost I9 x ≤ eTotalCost I9 sol9 →
      (∀ g, x.vInstalUnits g = 2) ∧ (∀ sc p, x.vENS sc p = 0) ∧
      x.vInvesCost = 20 ∧ (∀ sc g p, x.vProduct sc g p = I9.pDemand p)) := by
  have hcost : eTotalCost I9 sol9 = 101/5 := by norm_num [eTotalCost]
  refine ⟨sol9_feasible, ?_, ?_⟩
  · intro x hx
    rw [hcost]
    exact I9_cost_lower_bound x hx
  · intro x hx hle
    rw [hcost] at hle
    obtain ⟨hu, hE0, hE1, hic, hP0, hP1⟩ := I9_optimal_charact x hx hle
    refine ⟨?_, ?_, hic, ?_⟩
    · intro g; fin_cases g; exact hu
    · intro sc p
      fin_cases sc <;> fin_cases p
      · exact hE0
      · exact hE1
    · intro sc g p
      fin_cases sc <;> fin_cases g <;> fin_cases p
      · exact hP0
      · exact hP1

theorem c9_witness :
    sol9.vInstalUnits 0 = 2 ∧ sol9.vInvesCost = 20 :=
  ⟨(c9_end_to_end.2.2 sol9 c9_end_to_end.1 le_rfl).1 0,
   (c9_end_to_end.2.2 sol9 c9_end_to_end.1 le_rfl).2.2.1⟩

end GEP
